import Mathlib

/-!
Verification of the Osiris command safety-and-execution pipeline.

The definitions below are a shallow embedding of
`kshitij_safety_gate/safety_gate.py` (risk classifier) and
`shiv_command_execution/command_executor.py` (translating execution
engine).  Python strings are modelled as Lean `String`/`List Char`;
Python's substring test `sub in s` is `occursIn`; Python's
`str.split()` (whitespace word split) is `pyWords`; Python's
`str.lower()` is `List.map Char.toLower` (the commands involved are
ASCII).  Side-effecting process execution is modelled by passing the
outcome of each spawn explicitly (`SpawnOutcome`), together with the
wall-clock timestamps the code reads via `datetime.now()`.
-/

namespace Osiris

/-- Is `pat` a leading segment of `hay`?  (Helper for the Python
substring test.) -/
def leadsWith : List Char → List Char → Bool
  | [], _ => true
  | _ :: _, [] => false
  | p :: ps, h :: hs => (p == h) && leadsWith ps hs

/-- Python's `pat in hay` contiguous-substring test on character
lists. -/
def occursIn (pat : List Char) : List Char → Bool
  | [] => leadsWith pat []
  | h :: hs => leadsWith pat (h :: hs) || occursIn pat hs

/-- Python's `sub in s` for a string pattern against a character
list. -/
def containsSub (hay : List Char) (pat : String) : Bool :=
  occursIn pat.toList hay

/-- Python's `s.lower()` on a character list (ASCII). -/
def pyLower (l : List Char) : List Char :=
  l.map Char.toLower

/-- Helper for `pyWords`: `acc` is the word currently being read. -/
def pyWordsAux : List Char → List Char → List (List Char)
  | acc, [] => if acc = [] then [] else [acc]
  | acc, c :: cs =>
    if c.isWhitespace then
      if acc = [] then pyWordsAux [] cs else acc :: pyWordsAux [] cs
    else
      pyWordsAux (acc ++ [c]) cs

/-- Python's `s.split()` — split on runs of whitespace, no empty
words.  (A leading `strip()` does not change the result.) -/
def pyWords (l : List Char) : List (List Char) :=
  pyWordsAux [] l

/-- `str.split()` lifted back to `String` words. -/
def pySplit (s : String) : List String :=
  (pyWords s.toList).map (fun w => String.mk w)

/-! ## Safety gate (`safety_gate.py`) -/

/-- `RiskLevel` from `safety_gate.py`. -/
inductive RiskLevel where
  | safe
  | low
  | medium
  | high
  | critical
deriving DecidableEq, Repr

/-- The configuration options `SafetyGate.__init__` reads, with its
defaults. -/
structure SafetyConfig where
  enabled : Bool := true
  sandbox_mode : Bool := false
  dangerous_commands : List String := []
  sensitive_paths : List String := []

/-- The dictionary returned by `SafetyGate.evaluate_command`. -/
structure Verdict where
  allowed : Bool
  risk_level : RiskLevel
  reason : String
  warnings : List String
deriving DecidableEq, Repr

/-- An apostrophe character (used in warning texts). -/
def apos : Char := Char.ofNat 39

/-- `SafetyGate._is_critical_command`.  Returns `(is_critical, reason)`. -/
def isCriticalCommand (cfg : SafetyConfig) (command : String) : Bool × String :=
  let cl := command.toList
  let command_lower := pyLower cl
  if containsSub cl ":()\x7b" || containsSub cl ":|:&" then
    (true, "Fork bomb detected - would crash system")
  else if containsSub cl "rm -rf /" || containsSub cl "rm -fr /" then
    (true, "Attempting to delete root directory")
  else if containsSub command_lower "mkfs" || containsSub command_lower "format" then
    (true, "Attempting to format hard drive")
  else if containsSub command_lower "dd if=/dev/zero" ||
      containsSub command_lower "dd if=/dev/random" then
    (true, "Attempting to overwrite hard drive")
  else if (containsSub command_lower "/boot" || containsSub command_lower "/dev/sda" ||
        containsSub command_lower "/dev/nvme") &&
      (containsSub command_lower "rm" || containsSub command_lower "dd" ||
        containsSub cl ">") then
    (true, "Attempting to destroy boot partition")
  else
    match cfg.dangerous_commands.find?
        (fun dangerous => occursIn (pyLower dangerous.toList) command_lower) with
    | some dangerous => (true, "Matches dangerous pattern: " ++ dangerous)
    | none => (false, "")

/-- `SafetyGate._is_high_risk_command`.  Returns `(is_high_risk, reason)`. -/
def isHighRiskCommand (command : String) : Bool × String :=
  let cl := command.toList
  let command_lower := pyLower cl
  if (containsSub cl "rm -rf" || containsSub cl "rm -fr") && !containsSub cl "/" then
    (true, "Recursive delete detected")
  else if containsSub command_lower "chmod -r" || containsSub command_lower "chown -r" then
    (true, "Recursive permission change detected")
  else if containsSub command_lower "kill" &&
      (containsSub cl " 1" || containsSub cl "-9 1") then
    (true, "Attempting to kill init process")
  else if (containsSub command_lower "c:\\windows" ||
        containsSub command_lower "c:\\program files") &&
      (containsSub command_lower "rm" || containsSub command_lower "del") then
    (true, "Attempting to delete Windows system folder")
  else
    (false, "")

/-- `SafetyGate._is_medium_risk_command`.  Returns `(is_medium_risk, reason)`. -/
def isMediumRiskCommand (cfg : SafetyConfig) (command : String) : Bool × String :=
  let cl := command.toList
  let command_lower := pyLower cl
  if (containsSub command_lower "rm" || containsSub command_lower "del") &&
      containsSub cl "*" then
    (true, "Deleting multiple files with wildcard")
  else if containsSub command_lower "chmod" || containsSub command_lower "icacls" then
    (true, "Changing file permissions")
  else
    match cfg.sensitive_paths.find?
        (fun p => occursIn (pyLower p.toList) command_lower) with
    | some p => (true, "Accessing sensitive path: " ++ p)
    | none => (false, "")

/-- The fixed token set of `SafetyGate._needs_confirmation`. -/
def confirmCommands : List String :=
  ["rm", "del", "kill", "chmod", "chown", "rmdir"]

/-- `SafetyGate._needs_confirmation`.  Returns
`(needs_confirmation, reason)`. -/
def needsConfirmation (command : String) : Bool × String :=
  let command_lower := pyLower command.toList
  match pyWords command_lower with
  | [] => (false, "")
  | cmd :: _ =>
    if confirmCommands.contains (String.mk cmd) then
      (true, String.singleton apos ++ String.mk cmd ++ String.singleton apos ++
        " command requires confirmation")
    else
      (false, "")

/-- `SafetyGate.evaluate_command`: fixed-priority evaluation
disabled → CRITICAL → HIGH → MEDIUM → confirmation → SAFE, first
match wins. -/
def evaluateCommand (cfg : SafetyConfig) (command : String) : Verdict :=
  if !cfg.enabled then
    { allowed := true, risk_level := .safe, reason := "Safety gate disabled", warnings := [] }
  else if (isCriticalCommand cfg command).fst then
    { allowed := false, risk_level := .critical, reason := (isCriticalCommand cfg command).snd,
      warnings := ["This command could destroy your system!"] }
  else if (isHighRiskCommand command).fst then
    { allowed := false, risk_level := .high, reason := (isHighRiskCommand command).snd,
      warnings := ["This command is very dangerous!"] }
  else if (isMediumRiskCommand cfg command).fst then
    { allowed := true, risk_level := .medium, reason := "",
      warnings := [(isMediumRiskCommand cfg command).snd] }
  else if (needsConfirmation command).fst then
    { allowed := true, risk_level := .low, reason := "",
      warnings := [(needsConfirmation command).snd] }
  else
    { allowed := true, risk_level := .safe, reason := "", warnings := [] }

/-- The default configuration: gate enabled, no user-configured
dangerous commands or sensitive paths. -/
def defaultSafetyConfig : SafetyConfig := {}

/-! ## Command executor (`command_executor.py`) -/

/-- The `linux_commands` table of `CommandExecutor._is_linux_command`;
it lists exactly the tokens handled by `_translate_to_windows`. -/
def linuxCommands : List String :=
  ["ls", "cat", "pwd", "touch", "mkdir", "rm", "cp", "mv",
   "echo", "clear", "ps", "kill", "grep", "find", "df",
   "whoami", "hostname", "date", "head", "tail", "wc"]

/-- The leading word of a command
(`command.strip().split()[0] if command.strip() else ''`). -/
def firstWord (command : String) : String :=
  match pySplit command with
  | [] => ""
  | w :: _ => w

/-- `CommandExecutor._is_linux_command`. -/
def isLinuxCommand (command : String) : Bool :=
  linuxCommands.contains (firstWord command)

/-- The dispatch of `CommandExecutor._translate_to_windows` on the
already-split command words (`parts = command.strip().split()`); the
original `command` string is returned when the split is empty or the
leading token is unmapped. -/
def translateParts (command : String) : List String → String
  | [] => command
  | cmd :: args =>
    if cmd = "ls" then "Get-ChildItem"
    else if cmd = "pwd" then "Get-Location"
    else if cmd = "cat" then
      match args with
      | a :: _ => "Get-Content \"" ++ a ++ "\""
      | [] => "Write-Host \"cat: missing file name\""
    else if cmd = "head" then
      match args.getLast? with
      | some a => "Get-Content \"" ++ a ++ "\" | Select-Object -First 10"
      | none => "Write-Host \"head: missing file name\""
    else if cmd = "tail" then
      match args.getLast? with
      | some a => "Get-Content \"" ++ a ++ "\" | Select-Object -Last 10"
      | none => "Write-Host \"tail: missing file name\""
    else if cmd = "touch" then
      match args with
      | filename :: _ =>
        "if (Test-Path \"" ++ filename ++ "\") \x7b (Get-Item \"" ++ filename ++
          "\").LastWriteTime = Get-Date \x7d else \x7b New-Item -ItemType File \"" ++
          filename ++ "\" | Out-Null \x7d"
      | [] => "Write-Host \"touch: missing file name\""
    else if cmd = "mkdir" then
      match args with
      | a :: _ => "New-Item -ItemType Directory \"" ++ a ++ "\" -Force"
      | [] => "Write-Host \"mkdir: missing directory name\""
    else if cmd = "rm" then
      match args with
      | a :: _ => "Remove-Item \"" ++ a ++ "\" -Force"
      | [] => "Write-Host \"rm: missing file name\""
    else if cmd = "cp" then
      match args with
      | a :: b :: _ => "Copy-Item \"" ++ a ++ "\" \"" ++ b ++ "\""
      | _ => "Write-Host \"cp: need source and destination\""
    else if cmd = "mv" then
      match args with
      | a :: b :: _ => "Move-Item \"" ++ a ++ "\" \"" ++ b ++ "\""
      | _ => "Write-Host \"mv: need source and destination\""
    else if cmd = "echo" then
      match args with
      | _ :: _ => "Write-Output " ++ String.intercalate " " args
      | [] => "Write-Output \"\""
    else if cmd = "clear" then "Clear-Host"
    else if cmd = "ps" then "Get-Process | Select-Object ProcessName,Id,CPU"
    else if cmd = "kill" then
      match args with
      | a :: _ => "Stop-Process -Id " ++ a ++ " -Force"
      | [] => "Write-Host \"kill: missing process ID\""
    else if cmd = "grep" then
      match args with
      | _ :: _ => "Select-String " ++ String.intercalate " " args
      | [] => "Write-Host \"grep: missing search pattern\""
    else if cmd = "find" then
      "Get-ChildItem -Path \"" ++ (args.headD ".") ++ "\" -Recurse"
    else if cmd = "df" then "Get-PSDrive -PSProvider FileSystem"
    else if cmd = "whoami" then "$env:USERNAME"
    else if cmd = "hostname" then "$env:COMPUTERNAME"
    else if cmd = "date" then "Get-Date"
    else if cmd = "wc" then
      match args with
      | a :: _ => "Get-Content \"" ++ a ++ "\" | Measure-Object -Line -Word -Character"
      | [] => "Write-Host \"wc: missing file name\""
    else
      command

/-- `CommandExecutor._translate_to_windows`. -/
def translateToWindows (command : String) : String :=
  translateParts command (pySplit command)

/-- The configuration state of a `CommandExecutor` after `__init__`:
the stored default timeout, the stored WSL preference, and the probed
WSL availability (`_wsl_available`). -/
structure ExecConfig where
  timeout : Nat := 300
  use_wsl : Bool := false
  wsl_available : Bool := false

/-- The dictionary built by `CommandExecutor.execute` (step 5 and the
exception handler).  Timestamps are abstract integers supplied by the
clock; `duration` is their difference in place of
`(end_time - start_time).total_seconds()`. -/
structure ExecutionResult where
  command : String
  output : String
  error : String
  exit_code : Int
  success : Bool
  duration : Int
  start_time : Int
  end_time : Int
deriving DecidableEq, Repr

/-- The observable behaviour of one `subprocess.Popen` +
`communicate` round: normal completion, `TimeoutExpired` followed by
`kill` and a second `communicate`, or an exception reaching the
`except` handler.  `stdout`/`stderr` are `none` when not captured
(Python `None`); `tEnd` is the wall-clock time at which control
returns (`datetime.now()` in the result-building code). -/
inductive SpawnOutcome where
  | completed (stdout stderr : Option String) (code : Int) (tEnd : Int)
  | timedOut (stdout stderr : Option String) (code : Int) (tEnd : Int)
  | raised (msg : String) (tEnd : Int)
deriving DecidableEq, Repr

/-- The wall-clock time at which a spawn outcome hands back control. -/
def SpawnOutcome.tEnd : SpawnOutcome → Int
  | .completed _ _ _ t => t
  | .timedOut _ _ _ t => t
  | .raised _ t => t

/-- A spawn request issued by the engine: which backend
(`wsl bash -lc` vs `powershell.exe -Command`) and which command
string. -/
structure SpawnReq where
  wsl : Bool
  cmd : String
deriving DecidableEq, Repr

/-- The environment for one `execute` call: the outcome of the first
spawn and (if the fallback retry runs) of the second. -/
structure ExecEnv where
  outcome1 : SpawnOutcome
  outcome2 : SpawnOutcome
deriving Repr

/-- The synthetic message prefixed to stderr on timeout:
`f"Command timeout after {timeout} seconds\n"`. -/
def timeoutNotice (timeout : Nat) : String :=
  "Command timeout after " ++ toString timeout ++ " seconds\n"

/-- The `fallback_tokens` list of
`CommandExecutor._should_fallback_to_powershell`. -/
def fallbackTokens : List String :=
  ["bash: not found",
   "no installed distributions",
   "wsl.exe was not found",
   "the system cannot find the file specified"]

/-- `CommandExecutor._should_fallback_to_powershell`. -/
def shouldFallbackToPowershell (stderr : Option String) : Bool :=
  match stderr with
  | none => false
  | some s =>
    if s = "" then false
    else fallbackTokens.any (fun tok => containsSub (pyLower s.toList) tok)

/-- `timeout = timeout or self.timeout` (Python: `None` and `0` are
both falsy). -/
def resolveTimeout (timeoutArg : Option Nat) (dflt : Nat) : Nat :=
  match timeoutArg with
  | some t => if t = 0 then dflt else t
  | none => dflt

/-- The result dictionary of step 5 of `execute`
(`success = exit_code == 0`). -/
def mkResult (command output error : String) (code : Int) (t0 t1 : Int) :
    ExecutionResult :=
  { command := command, output := output, error := error, exit_code := code,
    success := code == 0, duration := t1 - t0, start_time := t0, end_time := t1 }

/-- One pass of `execute` with `use_wsl = False` (the shape the
fallback retry re-enters with): translate when the command is a Linux
command, spawn through PowerShell, and build/record the result.  The
exception path returns its result without appending it to the
history.  Returns (result, new history, spawn requests issued). -/
def executeNative (command : String) (timeout : Nat) (t0 : Int)
    (out : SpawnOutcome) (history : List ExecutionResult) :
    ExecutionResult × List ExecutionResult × List SpawnReq :=
  let cmdRun := if isLinuxCommand command then translateToWindows command else command
  match out with
  | .raised msg t1 =>
    ({ command := command, output := "", error := msg, exit_code := -1,
       success := false, duration := t1 - t0, start_time := t0, end_time := t1 },
     history, [⟨false, cmdRun⟩])
  | .completed so se code t1 =>
    let r := mkResult command (so.getD "") (se.getD "") code t0 t1
    (r, history ++ [r], [⟨false, cmdRun⟩])
  | .timedOut so se code t1 =>
    let r := mkResult command (so.getD "")
      (timeoutNotice timeout ++ se.getD "") code t0 t1
    (r, history ++ [r], [⟨false, cmdRun⟩])

/-- `CommandExecutor.execute`.  `t0` is the `datetime.now()` read at
entry; `tRetry` is the one read at entry of the recursive fallback
call.  When the effective `use_wsl` is true, the command is spawned
untranslated through WSL; a nonzero exit whose stderr matches a
fallback token re-executes the original command through
`executeNative` (the recursive call with `use_wsl=False`), whose
result alone is returned.  Returns (result, new history, spawn
requests issued in order). -/
def execute (cfg : ExecConfig) (history : List ExecutionResult) (command : String)
    (timeoutArg : Option Nat) (useWslArg : Option Bool) (t0 tRetry : Int)
    (env : ExecEnv) : ExecutionResult × List ExecutionResult × List SpawnReq :=
  let timeout := resolveTimeout timeoutArg cfg.timeout
  let useWsl := (useWslArg.getD cfg.use_wsl) && cfg.wsl_available
  if useWsl then
    match env.outcome1 with
    | .raised msg t1 =>
      ({ command := command, output := "", error := msg, exit_code := -1,
         success := false, duration := t1 - t0, start_time := t0, end_time := t1 },
       history, [⟨true, command⟩])
    | .completed so se code t1 =>
      if (code != 0) && shouldFallbackToPowershell se then
        let inner := executeNative command timeout tRetry env.outcome2 history
        (inner.1, inner.2.1, ⟨true, command⟩ :: inner.2.2)
      else
        let r := mkResult command (so.getD "") (se.getD "") code t0 t1
        (r, history ++ [r], [⟨true, command⟩])
    | .timedOut so se code t1 =>
      let se' := timeoutNotice timeout ++ se.getD ""
      if (code != 0) && shouldFallbackToPowershell (some se') then
        let inner := executeNative command timeout tRetry env.outcome2 history
        (inner.1, inner.2.1, ⟨true, command⟩ :: inner.2.2)
      else
        let r := mkResult command (so.getD "") se' code t0 t1
        (r, history ++ [r], [⟨true, command⟩])
  else
    executeNative command timeout t0 env.outcome1 history

end Osiris

namespace Osiris

/-- C2: with the classifier enabled and default configuration, the
HIGH recursive-delete rule fires only without a path separator:
`"rm -rf foo"` is classified HIGH and blocked, while
`"rm -rf sub/dir"` is not HIGH (it falls through to the LOW
confirmation level and stays allowed). -/
theorem c2_recursive_delete_separator_quirk :
    evaluateCommand defaultSafetyConfig "rm -rf foo" =
      { allowed := false, risk_level := .high, reason := "Recursive delete detected",
        warnings := ["This command is very dangerous!"] } ∧
    (evaluateCommand defaultSafetyConfig "rm -rf sub/dir").risk_level ≠ RiskLevel.high ∧
    (evaluateCommand defaultSafetyConfig "rm -rf sub/dir").risk_level = RiskLevel.low ∧
    (evaluateCommand defaultSafetyConfig "rm -rf sub/dir").allowed = true := by
  refine ⟨by decide, by decide, by decide, by decide⟩

/-- C3: with the gate enabled, classification is fixed-priority with
first match winning: a critical match decides the verdict regardless
of the lower checks; a high match decides it when critical did not
fire; and so on down to SAFE. -/
theorem c3_classifier_priority (cfg : SafetyConfig) (command : String)
    (he : cfg.enabled = true) :
    ((isCriticalCommand cfg command).fst = true →
      evaluateCommand cfg command =
        { allowed := false, risk_level := .critical,
          reason := (isCriticalCommand cfg command).snd,
          warnings := ["This command could destroy your system!"] }) ∧
    ((isCriticalCommand cfg command).fst = false →
      (isHighRiskCommand command).fst = true →
      evaluateCommand cfg command =
        { allowed := false, risk_level := .high,
          reason := (isHighRiskCommand command).snd,
          warnings := ["This command is very dangerous!"] }) ∧
    ((isCriticalCommand cfg command).fst = false →
      (isHighRiskCommand command).fst = false →
      (isMediumRiskCommand cfg command).fst = true →
      evaluateCommand cfg command =
        { allowed := true, risk_level := .medium, reason := "",
          warnings := [(isMediumRiskCommand cfg command).snd] }) ∧
    ((isCriticalCommand cfg command).fst = false →
      (isHighRiskCommand command).fst = false →
      (isMediumRiskCommand cfg command).fst = false →
      (needsConfirmation command).fst = true →
      evaluateCommand cfg command =
        { allowed := true, risk_level := .low, reason := "",
          warnings := [(needsConfirmation command).snd] }) ∧
    ((isCriticalCommand cfg command).fst = false →
      (isHighRiskCommand command).fst = false →
      (isMediumRiskCommand cfg command).fst = false →
      (needsConfirmation command).fst = false →
      evaluateCommand cfg command =
        { allowed := true, risk_level := .safe, reason := "", warnings := [] }) := by
  refine ⟨?_, ?_, ?_, ?_, ?_⟩ <;> intros <;> simp [evaluateCommand, he, *]

/-- C3 witness: `"rm -rf / *"` matches both a CRITICAL pattern
(delete of root) and a MEDIUM pattern (wildcard delete), and the
verdict is CRITICAL. -/
theorem c3_classifier_priority_witness :
    (isCriticalCommand defaultSafetyConfig "rm -rf / *").fst = true ∧
    (isMediumRiskCommand defaultSafetyConfig "rm -rf / *").fst = true ∧
    evaluateCommand defaultSafetyConfig "rm -rf / *" =
      { allowed := false, risk_level := .critical,
        reason := "Attempting to delete root directory",
        warnings := ["This command could destroy your system!"] } := by
  refine ⟨by decide, by decide, ?_⟩
  have h := (c3_classifier_priority defaultSafetyConfig "rm -rf / *" rfl).1 (by decide)
  rw [h]
  decide

/-- C4: with the gate configured off, every command — including one
matching a CRITICAL pattern — is allowed at level SAFE; with the gate
on, a critical or high match is always blocked, so the disabled
configuration is the only bypass. -/
theorem c4_disabled_only_bypass (cfg : SafetyConfig) (command : String) :
    (cfg.enabled = false →
      evaluateCommand cfg command =
        { allowed := true, risk_level := .safe, reason := "Safety gate disabled",
          warnings := [] }) ∧
    (cfg.enabled = true →
      ((isCriticalCommand cfg command).fst = true ∨
        (isHighRiskCommand command).fst = true) →
      (evaluateCommand cfg command).allowed = false) := by
  constructor
  · intro h
    simp [evaluateCommand, h]
  · intro h hd
    rcases hd with hc | hh
    · simp [evaluateCommand, h, hc]
    · by_cases hc : (isCriticalCommand cfg command).fst <;>
        simp [evaluateCommand, h, hc, hh]

/-- C4 witness: disabled gate lets `"rm -rf /"` through as SAFE, while
the enabled default gate blocks it. -/
theorem c4_disabled_only_bypass_witness :
    evaluateCommand { enabled := false } "rm -rf /" =
      { allowed := true, risk_level := .safe, reason := "Safety gate disabled",
        warnings := [] } ∧
    (evaluateCommand defaultSafetyConfig "rm -rf /").allowed = false :=
  ⟨(c4_disabled_only_bypass { enabled := false } "rm -rf /").1 rfl,
   (c4_disabled_only_bypass defaultSafetyConfig "rm -rf /").2 rfl (Or.inl (by decide))⟩

/-- C8: translation is exact-match lookup on the leading token:
`ls` maps to the native listing command, `cp a b` to a quoted
two-argument copy, and any command whose leading token is not in the
table — such as `unknowncmd x` — passes through unchanged, so
translation never fails. -/
theorem c8_translate_exact_match_identity_fallback :
    translateToWindows "ls" = "Get-ChildItem" ∧
    translateToWindows "cp a b" = "Copy-Item \"a\" \"b\"" ∧
    translateToWindows "unknowncmd x" = "unknowncmd x" ∧
    ∀ command : String, firstWord command ∉ linuxCommands →
      translateToWindows command = command := by
  refine ⟨by decide, by decide, by decide, ?_⟩
  intro command h
  unfold translateToWindows
  unfold firstWord at h
  cases hp : pySplit command with
  | nil => rfl
  | cons cmd args =>
    rw [hp] at h
    simp [linuxCommands] at h
    simp [translateParts, h]

/-- C8 witness: `unknowncmd` is outside the token table, and
translation leaves the command unchanged. -/
theorem c8_translate_identity_witness :
    translateToWindows "unknowncmd --flag target" = "unknowncmd --flag target" :=
  c8_translate_exact_match_identity_fallback.2.2.2 "unknowncmd --flag target" (by decide)

/-- C9: for every table-mapped leading token with required arguments
missing (`cat`/`head`/`tail`/`touch`/`mkdir`/`rm`/`kill`/`grep`/`wc`
with no argument, `cp`/`mv` with fewer than two), translation returns
a printable `Write-Host` usage-error command instead of raising, for
any surrounding raw command string. -/
theorem c9_missing_args_usage_error :
    (∀ c : String, translateParts c ["cat"] = "Write-Host \"cat: missing file name\"") ∧
    (∀ c : String, translateParts c ["head"] = "Write-Host \"head: missing file name\"") ∧
    (∀ c : String, translateParts c ["tail"] = "Write-Host \"tail: missing file name\"") ∧
    (∀ c : String, translateParts c ["touch"] = "Write-Host \"touch: missing file name\"") ∧
    (∀ c : String, translateParts c ["mkdir"] = "Write-Host \"mkdir: missing directory name\"") ∧
    (∀ c : String, translateParts c ["rm"] = "Write-Host \"rm: missing file name\"") ∧
    (∀ c : String, translateParts c ["cp"] = "Write-Host \"cp: need source and destination\"") ∧
    (∀ c a : String, translateParts c ["cp", a] = "Write-Host \"cp: need source and destination\"") ∧
    (∀ c : String, translateParts c ["mv"] = "Write-Host \"mv: need source and destination\"") ∧
    (∀ c a : String, translateParts c ["mv", a] = "Write-Host \"mv: need source and destination\"") ∧
    (∀ c : String, translateParts c ["kill"] = "Write-Host \"kill: missing process ID\"") ∧
    (∀ c : String, translateParts c ["grep"] = "Write-Host \"grep: missing search pattern\"") ∧
    (∀ c : String, translateParts c ["wc"] = "Write-Host \"wc: missing file name\"") ∧
    translateToWindows "cat" = "Write-Host \"cat: missing file name\"" ∧
    translateToWindows "cp a" = "Write-Host \"cp: need source and destination\"" ∧
    translateToWindows "rm" = "Write-Host \"rm: missing file name\"" := by
  refine ⟨fun c => rfl, fun c => rfl, fun c => rfl, fun c => rfl, fun c => rfl,
    fun c => rfl, fun c => rfl, fun c a => rfl, fun c => rfl, fun c a => rfl,
    fun c => rfl, fun c => rfl, fun c => rfl, by decide, by decide, by decide⟩

/-- Lowercasing fixes whitespace characters. -/
theorem ws_toLower (c : Char) (h : c.isWhitespace = true) : c.toLower = c := by
  simp only [Char.isWhitespace, Bool.or_eq_true, decide_eq_true_eq] at h
  rcases h with ((h | h) | h) | h <;> subst h <;> decide

/-- A leading-segment match only uses characters of the haystack. -/
theorem leadsWith_mem : ∀ {pat l : List Char}, leadsWith pat l = true →
    ∀ c ∈ pat, c ∈ l := by
  intro pat
  induction pat with
  | nil =>
    intro l _ c hc
    exact absurd hc (List.not_mem_nil c)
  | cons p ps ih =>
    intro l h c hc
    cases l with
    | nil => simp [leadsWith] at h
    | cons q qs =>
      simp only [leadsWith, Bool.and_eq_true, beq_iff_eq] at h
      obtain ⟨rfl, hrest⟩ := h
      rcases List.mem_cons.1 hc with rfl | hmem
      · exact List.mem_cons_self _ _
      · exact List.mem_cons_of_mem _ (ih hrest c hmem)

/-- A substring match only uses characters of the haystack. -/
theorem occursIn_mem : ∀ {pat l : List Char}, occursIn pat l = true →
    ∀ c ∈ pat, c ∈ l := by
  intro pat l
  induction l with
  | nil =>
    intro h
    simp only [occursIn] at h
    exact leadsWith_mem h
  | cons q qs ih =>
    intro h c hc
    simp only [occursIn, Bool.or_eq_true] at h
    rcases h with h | h
    · exact leadsWith_mem h c hc
    · exact List.mem_cons_of_mem _ (ih h c hc)

/-- A pattern holding a non-whitespace character never occurs in an
all-whitespace haystack. -/
theorem containsSub_false {l : List Char} (hl : ∀ c ∈ l, c.isWhitespace = true)
    (pat : String) (hpat : pat.toList.any (fun c => !c.isWhitespace) = true) :
    containsSub l pat = false := by
  cases h : containsSub l pat with
  | false => rfl
  | true =>
    simp only [containsSub] at h
    obtain ⟨c, hc, hnw⟩ := List.any_eq_true.mp hpat
    have := hl c (occursIn_mem h c hc)
    simp [this] at hnw

/-- Lowercasing preserves all-whitespace strings. -/
theorem pyLower_allWs {l : List Char} (h : ∀ c ∈ l, c.isWhitespace = true) :
    ∀ c ∈ pyLower l, c.isWhitespace = true := by
  intro c hc
  rw [pyLower, List.mem_map] at hc
  obtain ⟨a, ha, rfl⟩ := hc
  rw [ws_toLower a (h a ha)]
  exact h a ha

/-- Whitespace-only input splits into no words. -/
theorem pyWords_allWs : ∀ {l : List Char}, (∀ c ∈ l, c.isWhitespace = true) →
    pyWords l = [] := by
  intro l
  induction l with
  | nil => intro _; rfl
  | cons c cs ih =>
    intro h
    have hc := h c (List.mem_cons_self c cs)
    have ih' := ih (fun a ha => h a (List.mem_cons_of_mem _ ha))
    simp only [pyWords] at ih' ⊢
    simp [pyWordsAux, hc, ih']

/-- With no configured dangerous commands, a whitespace-only command
triggers no critical check. -/
theorem isCritical_allWs (cfg : SafetyConfig) (hd : cfg.dangerous_commands = [])
    {command : String} (h : ∀ c ∈ command.toList, c.isWhitespace = true) :
    isCriticalCommand cfg command = (false, "") := by
  have hlo := pyLower_allWs h
  simp only [isCriticalCommand, hd]
  rw [containsSub_false h ":()\x7b" (by decide),
      containsSub_false h ":|:&" (by decide),
      containsSub_false h "rm -rf /" (by decide),
      containsSub_false h "rm -fr /" (by decide),
      containsSub_false hlo "mkfs" (by decide),
      containsSub_false hlo "format" (by decide),
      containsSub_false hlo "dd if=/dev/zero" (by decide),
      containsSub_false hlo "dd if=/dev/random" (by decide),
      containsSub_false hlo "/boot" (by decide),
      containsSub_false hlo "/dev/sda" (by decide),
      containsSub_false hlo "/dev/nvme" (by decide)]
  simp

/-- A whitespace-only command triggers no high-risk check. -/
theorem isHigh_allWs {command : String}
    (h : ∀ c ∈ command.toList, c.isWhitespace = true) :
    isHighRiskCommand command = (false, "") := by
  have hlo := pyLower_allWs h
  simp only [isHighRiskCommand]
  rw [containsSub_false h "rm -rf" (by decide),
      containsSub_false h "rm -fr" (by decide),
      containsSub_false hlo "chmod -r" (by decide),
      containsSub_false hlo "chown -r" (by decide),
      containsSub_false hlo "kill" (by decide),
      containsSub_false hlo "c:\\windows" (by decide),
      containsSub_false hlo "c:\\program files" (by decide)]
  simp

/-- With no configured sensitive paths, a whitespace-only command
triggers no medium-risk check. -/
theorem isMedium_allWs (cfg : SafetyConfig) (hs : cfg.sensitive_paths = [])
    {command : String} (h : ∀ c ∈ command.toList, c.isWhitespace = true) :
    isMediumRiskCommand cfg command = (false, "") := by
  have hlo := pyLower_allWs h
  simp only [isMediumRiskCommand, hs]
  rw [containsSub_false hlo "rm" (by decide),
      containsSub_false hlo "del" (by decide),
      containsSub_false hlo "chmod" (by decide),
      containsSub_false hlo "icacls" (by decide)]
  simp

/-- A whitespace-only command splits into zero tokens, so no
confirmation is requested. -/
theorem needsConf_allWs {command : String}
    (h : ∀ c ∈ command.toList, c.isWhitespace = true) :
    needsConfirmation command = (false, "") := by
  have hlo := pyLower_allWs h
  simp only [needsConfirmation]
  rw [pyWords_allWs hlo]

/-- C10: with the gate enabled and empty `dangerous_commands` and
`sensitive_paths`, every empty or whitespace-only command string is
classified SAFE, allowed, with no warnings. -/
theorem c10_blank_command_safe (command : String)
    (h : ∀ c ∈ command.toList, c.isWhitespace = true) :
    evaluateCommand defaultSafetyConfig command =
      { allowed := true, risk_level := .safe, reason := "", warnings := [] } := by
  have hc := isCritical_allWs defaultSafetyConfig rfl h
  have hh := isHigh_allWs h
  have hm := isMedium_allWs defaultSafetyConfig rfl h
  have hn := needsConf_allWs h
  have he : defaultSafetyConfig.enabled = true := rfl
  simp [evaluateCommand, he, hc, hh, hm, hn]

/-- C10 witness: a whitespace-only command (space, tab, newline) is
SAFE under the default configuration. -/
theorem c10_blank_command_safe_witness :
    evaluateCommand defaultSafetyConfig " \t\n " =
      { allowed := true, risk_level := .safe, reason := "", warnings := [] } :=
  c10_blank_command_safe " \t\n " (by decide)

/-- The spawn requests issued by the native (`use_wsl=False`) pass:
exactly one, through PowerShell, with translation applied when the
command is a Linux command. -/
theorem executeNative_requests (command : String) (timeout : Nat) (t0 : Int)
    (out : SpawnOutcome) (history : List ExecutionResult) :
    (executeNative command timeout t0 out history).2.2 =
      [⟨false, if isLinuxCommand command then translateToWindows command else command⟩] := by
  cases out <;> rfl

/-- The native pass either appends its result to the history or (on
the exception path) leaves the history untouched while returning the
spawn-failure result. -/
theorem executeNative_records (command : String) (timeout : Nat) (t0 : Int)
    (out : SpawnOutcome) (history : List ExecutionResult) :
    (executeNative command timeout t0 out history).1.command = command ∧
    ((executeNative command timeout t0 out history).2.1 =
        history ++ [(executeNative command timeout t0 out history).1] ∨
      ((executeNative command timeout t0 out history).2.1 = history ∧
        (executeNative command timeout t0 out history).1.exit_code = -1 ∧
        (executeNative command timeout t0 out history).1.success = false ∧
        (executeNative command timeout t0 out history).1.output = "")) := by
  cases out with
  | raised msg t1 => exact ⟨rfl, Or.inr ⟨rfl, rfl, rfl, rfl⟩⟩
  | completed so se code t1 => exact ⟨rfl, Or.inl rfl⟩
  | timedOut so se code t1 => exact ⟨rfl, Or.inl rfl⟩

/-- C1 counterexample: when the spawn raises, `execute` returns a
well-formed result but does not append it to the execution history —
the history stays empty, so the returned result is not in the session
log, contradicting the claim that every call appends its result. -/
theorem c1_spawn_failure_not_recorded :
    (execute {} [] "echo hi" none none 0 0
      ⟨.raised "boom" 1, .raised "boom" 1⟩).2.1 = [] ∧
    (execute {} [] "echo hi" none none 0 0
      ⟨.raised "boom" 1, .raised "boom" 1⟩).1 ∉
      (execute {} [] "echo hi" none none 0 0
        ⟨.raised "boom" 1, .raised "boom" 1⟩).2.1 ∧
    (execute {} [] "echo hi" none none 0 0
      ⟨.raised "boom" 1, .raised "boom" 1⟩).1 =
      { command := "echo hi", output := "", error := "boom", exit_code := -1,
        success := false, duration := 1, start_time := 0, end_time := 1 } := by
  exact ⟨by decide, by decide, by decide⟩

/-- C1 (amended): every call to `execute` returns a fully-populated
`ExecutionResult` carrying the original command, and either appends
exactly that result to the execution history (success, timeout, and
fallback paths) or — on the spawn-failure exception path only —
returns the failure-shaped result without appending it. -/
theorem c1_execute_total_and_recorded (cfg : ExecConfig)
    (history : List ExecutionResult) (command : String)
    (timeoutArg : Option Nat) (useWslArg : Option Bool) (t0 tRetry : Int)
    (env : ExecEnv) :
    (execute cfg history command timeoutArg useWslArg t0 tRetry env).1.command = command ∧
    ((execute cfg history command timeoutArg useWslArg t0 tRetry env).2.1 =
        history ++ [(execute cfg history command timeoutArg useWslArg t0 tRetry env).1] ∨
      ((execute cfg history command timeoutArg useWslArg t0 tRetry env).2.1 = history ∧
        (execute cfg history command timeoutArg useWslArg t0 tRetry env).1.exit_code = -1 ∧
        (execute cfg history command timeoutArg useWslArg t0 tRetry env).1.success = false ∧
        (execute cfg history command timeoutArg useWslArg t0 tRetry env).1.output = "")) := by
  rcases env with ⟨o1, o2⟩
  unfold execute
  by_cases hw : ((useWslArg.getD cfg.use_wsl) && cfg.wsl_available) = true
  · simp only [hw, if_true]
    cases o1 with
    | raised msg t1 => exact ⟨rfl, Or.inr ⟨rfl, rfl, rfl, rfl⟩⟩
    | completed so se code t1 =>
      by_cases hf : ((code != 0) && shouldFallbackToPowershell se) = true
      · simp only [hf, if_true]
        exact executeNative_records ..
      · simp [hf, mkResult]
    | timedOut so se code t1 =>
      by_cases hf : ((code != 0) &&
          shouldFallbackToPowershell (some (timeoutNotice (resolveTimeout timeoutArg cfg.timeout) ++ se.getD ""))) = true
      · simp only [hf, if_true]
        exact executeNative_records ..
      · simp [hf, mkResult]
  · simp only [hw, if_false, Bool.false_eq_true]
    exact executeNative_records ..

/-- C5: whenever the clock is monotone across each spawn (`t0` and
`tRetry` precede the respective end times), the result of `execute`
satisfies `success ↔ exit_code = 0` and `duration ≥ 0`; and on a
spawn failure the result is exactly the failure shape with
`exit_code = -1`, `success = false` and the exception message in
`error`. -/
theorem c5_success_exit_duration (cfg : ExecConfig)
    (history : List ExecutionResult) (command : String)
    (timeoutArg : Option Nat) (useWslArg : Option Bool) (t0 tRetry : Int)
    (env : ExecEnv)
    (h1 : t0 ≤ env.outcome1.tEnd) (h2 : tRetry ≤ env.outcome2.tEnd) :
    ((execute cfg history command timeoutArg useWslArg t0 tRetry env).1.success = true ↔
      (execute cfg history command timeoutArg useWslArg t0 tRetry env).1.exit_code = 0) ∧
    0 ≤ (execute cfg history command timeoutArg useWslArg t0 tRetry env).1.duration ∧
    (∀ msg t1, env.outcome1 = SpawnOutcome.raised msg t1 →
      (execute cfg history command timeoutArg useWslArg t0 tRetry env).1 =
        { command := command, output := "", error := msg, exit_code := -1,
          success := false, duration := t1 - t0, start_time := t0, end_time := t1 }) := by
  rcases env with ⟨o1, o2⟩
  unfold execute
  by_cases hw : ((useWslArg.getD cfg.use_wsl) && cfg.wsl_available) = true <;>
    simp only [hw, if_true, if_false, Bool.false_eq_true]
  · cases o1 with
    | raised msg t1 =>
      simp only [SpawnOutcome.tEnd] at h1
      refine ⟨by simp, by simpa using h1, ?_⟩
      intro msg' t1' h
      injection h with hm ht
      subst hm; subst ht
      rfl
    | completed so se code t1 =>
      simp only [SpawnOutcome.tEnd] at h1 h2
      by_cases hf : ((code != 0) && shouldFallbackToPowershell se) = true <;>
        simp only [hf, if_true, if_false, Bool.false_eq_true]
      · cases o2 <;>
          simp_all [executeNative, mkResult]
      · simp_all [mkResult]
    | timedOut so se code t1 =>
      simp only [SpawnOutcome.tEnd] at h1 h2
      by_cases hf : ((code != 0) && shouldFallbackToPowershell
          (some (timeoutNotice (resolveTimeout timeoutArg cfg.timeout) ++ se.getD ""))) = true <;>
        simp only [hf, if_true, if_false, Bool.false_eq_true]
      · cases o2 <;>
          simp_all [executeNative, mkResult]
      · simp_all [mkResult]
  · simp only [SpawnOutcome.tEnd] at h1
    cases o1 <;> simp_all [executeNative, mkResult]

/-- C5 witness: a concrete successful native run with a monotone
clock. -/
theorem c5_success_exit_duration_witness :
    ((execute {} [] "pwd" none none 1 0
        ⟨.completed (some "hi") none 0 5, .completed none none 0 0⟩).1.success = true ↔
      (execute {} [] "pwd" none none 1 0
        ⟨.completed (some "hi") none 0 5, .completed none none 0 0⟩).1.exit_code = 0) ∧
    0 ≤ (execute {} [] "pwd" none none 1 0
        ⟨.completed (some "hi") none 0 5, .completed none none 0 0⟩).1.duration := by
  have h := c5_success_exit_duration {} [] "pwd" none none 1 0
    ⟨.completed (some "hi") none 0 5, .completed none none 0 0⟩ (by decide) (by decide)
  exact ⟨h.1, h.2.1⟩

/-- C6 counterexample: the claim fails in two ways.  (i) The
synthetic notice is written *before* the partial stderr
(`notice + stderr`), not appended after it: with buffered stderr
`"boom"` and a 5-second bound the error text is
`"Command timeout after 5 seconds\nboom"`, not `"boom" ++ notice`.
(ii) On the WSL path a timed-out child whose buffered stderr holds a
backend-missing token triggers the fallback check on the
notice-prefixed stderr, and the caller receives the native retry's
result instead: here `success = true` and `error = ""`, with no
timeout notice at all. -/
theorem c6_timeout_claim_counterexample :
    ((execute {} [] "somecmd" (some 5) (some false) 2 0
      ⟨.timedOut (some "out!") (some "boom") 1 7, .completed none none 0 0⟩).1.error =
      "Command timeout after 5 seconds\nboom" ∧
    (execute {} [] "somecmd" (some 5) (some false) 2 0
      ⟨.timedOut (some "out!") (some "boom") 1 7, .completed none none 0 0⟩).1.error ≠
      "boom" ++ "Command timeout after 5 seconds\n") ∧
    ((execute { use_wsl := true, wsl_available := true } [] "somecmd" (some 5) none 2 8
      ⟨.timedOut (some "partial") (some "bash: not found") 137 7,
       .completed (some "ok") none 0 9⟩).1.success = true ∧
    (execute { use_wsl := true, wsl_available := true } [] "somecmd" (some 5) none 2 8
      ⟨.timedOut (some "partial") (some "bash: not found") 137 7,
       .completed (some "ok") none 0 9⟩).1.error = "") := by
  exact ⟨⟨by decide, by decide⟩, by decide, by decide⟩

/-- C6 (amended): when the child exceeds the timeout bound it is
forcibly terminated and its buffered stdout/stderr collected.  Unless
the run was WSL-routed with a nonzero post-kill exit code and a
notice-prefixed stderr matching a backend-missing signature, the
result keeps the buffered stdout, has `success` equal to
`exit_code == 0` for the post-kill exit code, and its error text is
the synthetic timeout notice *prepended* to the buffered stderr; in
that excepted WSL case the timed-out attempt's result is discarded
and the caller instead receives the native retry's result. -/
theorem c6_timeout_collects_prepends_or_falls_back (cfg : ExecConfig)
    (history : List ExecutionResult) (command : String)
    (timeoutArg : Option Nat) (useWslArg : Option Bool) (t0 tRetry : Int)
    (env : ExecEnv) (so se : Option String) (code t1 : Int)
    (ho : env.outcome1 = SpawnOutcome.timedOut so se code t1) :
    ((((useWslArg.getD cfg.use_wsl) && cfg.wsl_available) = false ∨
      ((code != 0) && shouldFallbackToPowershell
        (some (timeoutNotice (resolveTimeout timeoutArg cfg.timeout) ++ se.getD ""))) = false) →
      (execute cfg history command timeoutArg useWslArg t0 tRetry env).1.success = (code == 0) ∧
      (execute cfg history command timeoutArg useWslArg t0 tRetry env).1.output = so.getD "" ∧
      (execute cfg history command timeoutArg useWslArg t0 tRetry env).1.error =
        timeoutNotice (resolveTimeout timeoutArg cfg.timeout) ++ se.getD "") ∧
    (((useWslArg.getD cfg.use_wsl) && cfg.wsl_available) = true →
      ((code != 0) && shouldFallbackToPowershell
        (some (timeoutNotice (resolveTimeout timeoutArg cfg.timeout) ++ se.getD ""))) = true →
      (execute cfg history command timeoutArg useWslArg t0 tRetry env).1 =
        (executeNative command (resolveTimeout timeoutArg cfg.timeout) tRetry
          env.outcome2 history).1) := by
  constructor
  · intro hor
    rcases hor with hw | hf
    · unfold execute
      simp [hw, ho, executeNative, mkResult]
    · by_cases hw : ((useWslArg.getD cfg.use_wsl) && cfg.wsl_available) = true
      · unfold execute
        simp [hw, ho, hf, mkResult]
      · unfold execute
        simp [hw, ho, executeNative, mkResult]
  · intro hw hf
    unfold execute
    simp [hw, ho, hf]

/-- C6 witness: a concrete timed-out native run with post-kill exit
code 9: buffered output kept, notice prepended. -/
theorem c6_timeout_collects_witness :
    (execute {} [] "x" (some 5) none 0 0
      ⟨.timedOut (some "po") (some "pe") 9 3, .completed none none 0 0⟩).1.success =
      ((9 : Int) == 0) ∧
    (execute {} [] "x" (some 5) none 0 0
      ⟨.timedOut (some "po") (some "pe") 9 3, .completed none none 0 0⟩).1.output =
      (some "po").getD "" ∧
    (execute {} [] "x" (some 5) none 0 0
      ⟨.timedOut (some "po") (some "pe") 9 3, .completed none none 0 0⟩).1.error =
      timeoutNotice (resolveTimeout (some 5) ({} : ExecConfig).timeout) ++ (some "pe").getD "" :=
  (c6_timeout_collects_prepends_or_falls_back {} [] "x" (some 5) none 0 0
    ⟨.timedOut (some "po") (some "pe") 9 3, .completed none none 0 0⟩
    (some "po") (some "pe") 9 3 rfl).1 (Or.inl rfl)

/-- C7: when a WSL-routed command completes with a nonzero exit code
and a known backend-missing stderr signature, `execute` issues exactly
two spawns — the untranslated command through WSL, then the original
command translated through PowerShell — and both the returned result
and the new history are exactly those of that single native retry. -/
theorem c7_wsl_fallback_retry (cfg : ExecConfig)
    (history : List ExecutionResult) (command : String)
    (timeoutArg : Option Nat) (t0 tRetry : Int) (env : ExecEnv)
    (so se : Option String) (code t1 : Int)
    (ha : cfg.wsl_available = true)
    (ho : env.outcome1 = SpawnOutcome.completed so se code t1)
    (hc : code ≠ 0)
    (hf : shouldFallbackToPowershell se = true) :
    (execute cfg history command timeoutArg (some true) t0 tRetry env).2.2 =
      [⟨true, command⟩,
       ⟨false, if isLinuxCommand command then translateToWindows command else command⟩] ∧
    (execute cfg history command timeoutArg (some true) t0 tRetry env).1 =
      (executeNative command (resolveTimeout timeoutArg cfg.timeout) tRetry
        env.outcome2 history).1 ∧
    (execute cfg history command timeoutArg (some true) t0 tRetry env).2.1 =
      (executeNative command (resolveTimeout timeoutArg cfg.timeout) tRetry
        env.outcome2 history).2.1 := by
  unfold execute
  simp [ha, ho, hc, hf, executeNative_requests]

/-- C7 witness: `"ls"` through WSL failing with `bash: not found`
retries once natively as `Get-ChildItem` and the caller receives the
retry's successful result. -/
theorem c7_wsl_fallback_retry_witness :
    (execute { wsl_available := true } [] "ls" none (some true) 0 3
      ⟨.completed none (some "bash: not found") 127 1,
       .completed (some "files") none 0 9⟩).2.2 =
      [⟨true, "ls"⟩,
       ⟨false, if isLinuxCommand "ls" then translateToWindows "ls" else "ls"⟩] ∧
    (execute { wsl_available := true } [] "ls" none (some true) 0 3
      ⟨.completed none (some "bash: not found") 127 1,
       .completed (some "files") none 0 9⟩).1 =
      (executeNative "ls" (resolveTimeout none ({ wsl_available := true } : ExecConfig).timeout) 3
        (SpawnOutcome.completed (some "files") none 0 9) []).1 ∧
    (execute { wsl_available := true } [] "ls" none (some true) 0 3
      ⟨.completed none (some "bash: not found") 127 1,
       .completed (some "files") none 0 9⟩).2.1 =
      (executeNative "ls" (resolveTimeout none ({ wsl_available := true } : ExecConfig).timeout) 3
        (SpawnOutcome.completed (some "files") none 0 9) []).2.1 :=
  c7_wsl_fallback_retry { wsl_available := true } [] "ls" none 0 3
    ⟨.completed none (some "bash: not found") 127 1, .completed (some "files") none 0 9⟩
    none (some "bash: not found") 127 1 rfl rfl (by decide) (by decide)

end Osiris
